import Mathlib

/-!
Shallow embedding of `src/main.py`: a FastAPI backend exposing greeting
endpoints, a database probe (`/test`) and a PPTX deck exporter
(`/api/export/pptx`).

Modelling choices:
* a Python dict record of the deck content table becomes a structure of
  optional fields (`none` = key absent);
* the pptx library document is abstracted as its list of slides, each slide
  being the text of its title shape plus the paragraphs of placeholder 1
  (the subtitle placeholder on the title layout, the body text frame on the
  content layout); the final byte serialization (`prs.save`) carries the
  same slide content;
* exogenous exceptions (library failures, import errors, environment
  lookups) enter as explicit parameters, so every handler is a total
  function of its outcome parameters.
-/

/-- Python slicing `s[:n]` on a string: the first `n` code points. -/
def pySlice (s : String) (n : Nat) : String :=
  String.mk (s.data.take n)

/-- Python truthiness of an optional list value (e.g. `if points:`):
the key is present and the list is non-empty. -/
def truthyList (v : Option (List String)) : Bool :=
  match v with
  | none => false
  | some l => !l.isEmpty

/-- Python truthiness of an `os.getenv` result: the variable is set and its
value is a non-empty string. -/
def truthyStr (v : Option String) : Bool :=
  match v with
  | none => false
  | some s => !s.isEmpty

/-- A record of the deck content table: a Python dict with the optional keys
`type`, `title`, `subtitle`, `points`, `flow` (`none` = key absent). -/
structure Record where
  type : Option String := none
  title : Option String := none
  subtitle : Option String := none
  points : Option (List String) := none
  flow : Option (List String) := none
deriving DecidableEq

/-- `build_deck_content` of `src/main.py`: the fixed structured content used
by the deck exporter. -/
def build_deck_content : List Record :=
  [ { type := some "title", title := some "AI Study Bot",
      subtitle := some "Intelligent Assistant for Learning" },
    { title := some "Introduction", points := some [
        "An AI-powered assistant that helps students learn faster and smarter",
        "Provides instant explanations, study aids, and guidance across subjects",
        "Combines NLP, retrieval, and personalization to support learning goals"] },
    { title := some "Problem Statement", points := some [
        "Information overload across textbooks, notes, and the web",
        "Lack of tailored guidance for different learners",
        "Manual notes are time-consuming and hard to organize",
        "Revising efficiently is challenging without structure"] },
    { title := some "Objectives", points := some [
        "Instant explanations on-demand",
        "Automatic summaries of long content",
        "Personalized learning paths",
        "Quizzes to test understanding",
        "Progress tracking and analytics"] },
    { title := some "System Architecture", points := some [
        "User Interface",
        "NLP Engine",
        "Knowledge Base",
        "Recommendation Module",
        "Feedback Loop"] },
    { title := some "Workflow", flow := some [
        "User query", "NLP", "Retrieval", "Response", "Personalized suggestion"] },
    { title := some "Key Features", points := some [
        "Doubt solving and instant Q&A",
        "Summarization of lectures and notes",
        "Quiz generation with adaptive difficulty",
        "Progress tracking dashboards",
        "Adaptive learning recommendations"] },
    { title := some "Use Cases", points := some [
        "Exam preparation",
        "Quick revision sessions",
        "Assignments and research support",
        "Self-study and continuous learning"] },
    { title := some "Technology Stack", points := some [
        "Python for backend logic",
        "Modern NLP models (LLMs, embeddings)",
        "Vector databases for retrieval",
        "Recommendation algorithms",
        "Web frameworks for UI + APIs"] },
    { title := some "Benefits", points := some [
        "Deeper understanding with timely help",
        "Reduced study time through automation",
        "24/7 assistance and motivation"] },
    { title := some "Limitations", points := some [
        "May produce inaccuracies; verification needed",
        "Requires regular data updates",
        "Possible misunderstandings of context",
        "Internet connectivity required"] },
    { title := some "Future Enhancements", points := some [
        "Voice interaction and speech synthesis",
        "Multimodal input (images, PDFs, whiteboards)",
        "Offline mode for core features",
        "Integration with LMS platforms"] },
    { title := some "Conclusion", points := some [
        "AI Study Bot streamlines learning, clarifies doubts, and adapts to each student",
        "Boosts outcomes through explanations, quizzes, and progress insight",
        "A reliable companion for effective, continuous learning"] } ]

/-- A rendered slide: the text of the title shape and the paragraphs of
placeholder 1. -/
structure Slide where
  title : String
  paragraphs : List String
deriving DecidableEq

/-- The flow branch of the content-slide loop: paragraph `i` gets the text
`step + arrow` where `arrow` is " → " when `i < len(flow) - 1` and ""
on the last step.  `n` is `len(flow)`, `i` the running index of
`enumerate`. -/
def renderFlowAux (n : Nat) : Nat → List String → List String
  | _, [] => []
  | i, step :: rest =>
      (step ++ (if i < n - 1 then " → " else "")) :: renderFlowAux n (i + 1) rest

/-- The full flow branch (`for i, step in enumerate(flow): ...`). -/
def renderFlow (flow : List String) : List String :=
  renderFlowAux flow.length 0 flow

/-- One iteration of the content-slide loop of `create_pptx_bytes` for a
section record: the slide title is `section.get("title", "")`; the body
paragraphs are the bullet points when `points` is truthy (that branch is
checked first), else the flow steps with separators when `flow` is truthy,
else the single empty paragraph left by `tf.clear()`. -/
def renderSection (sec : Record) : Slide :=
  { title := sec.title.getD ""
    paragraphs :=
      if truthyList sec.points then sec.points.getD []
      else if truthyList sec.flow then renderFlow (sec.flow.getD [])
      else [""] }

/-- The title slide built from the first deck record: title text
`first.get("title", "AI Study Bot")`, placeholder 1 (the subtitle) set to
`first.get("subtitle", "Intelligent Assistant for Learning")`. -/
def renderTitleSlide (first : Record) : Slide :=
  { title := first.title.getD "AI Study Bot"
    paragraphs := [first.subtitle.getD "Intelligent Assistant for Learning"] }

/-- `create_pptx_bytes` of `src/main.py`, abstracted to the slide content of
the document it serializes: the title slide from `deck[0]` followed by one
content slide per record of `deck[1:]`.  (On an empty deck the Python code
would fail at `deck[0]`; the deck is the fixed non-empty table, so that
branch is unreachable and modelled as the empty document.) -/
def create_pptx_bytes : List Slide :=
  match build_deck_content with
  | [] => []
  | first :: rest => renderTitleSlide first :: rest.map renderSection

/-- An HTTP response of the exporter endpoint: either a streaming response
(media type, headers, document content) or a JSON response with a status
code and a string-valued body dict. -/
inductive HttpResponse where
  | streaming (mediaType : String) (headers : List (String × String))
      (slides : List Slide)
  | json (status : Nat) (body : List (String × String))
deriving DecidableEq

/-- The `/api/export/pptx` handler `export_pptx`.  `exc` is the message of
an exception raised inside the `try` block — during `build_deck_content`,
document assembly or `prs.save` — and `none` when everything succeeds.  On
success the handler streams the document with the presentation media type
and an attachment content-disposition; on exception it returns a 500 JSON
error carrying `str(e)`. -/
def export_pptx (exc : Option String) : HttpResponse :=
  match exc with
  | some e => .json 500 [("error", e)]
  | none =>
      .streaming
        "application/vnd.openxmlformats-officedocument.presentationml.presentation"
        [("Content-Disposition", "attachment; filename=AI_Study_Bot_Presentation.pptx")]
        create_pptx_bytes

/-- The `db` handle of the optional `database` module: `name` is the value
of the `.name` attribute when `hasattr(db, 'name')` holds (`none`
otherwise); `list_collection_names` either returns the collection names or
raises an exception with the given message. -/
structure DbHandle where
  name : Option String
  list_collection_names : Except String (List String)

/-- Outcome of `from database import db` in `test_database`: success (with a
possibly-`None` handle), an `ImportError`, or any other exception. -/
inductive ImportOutcome where
  | ok (db : Option DbHandle)
  | importError
  | otherError (msg : String)

/-- The process environment as seen by `os.getenv`: `DATABASE_URL` and
`DATABASE_NAME` (`none` = unset). -/
structure Env where
  DATABASE_URL : Option String := none
  DATABASE_NAME : Option String := none

/-- The response dict of the `/test` handler. -/
structure TestResponse where
  backend : String
  database : String
  database_url : Option String
  database_name : Option String
  connection_status : String
  collections : List String
deriving DecidableEq

/-- A JSON value occurring in the `/test` response dict. -/
inductive JsonValue where
  | str (s : String)
  | null
  | arr (l : List String)
deriving DecidableEq

/-- View of an optional string field as a JSON value (`None` -> null). -/
def optVal : Option String → JsonValue
  | none => .null
  | some s => .str s

/-- The `/test` response as the Python dict it is: key/value pairs in
insertion order. -/
def TestResponse.toDict (r : TestResponse) : List (String × JsonValue) :=
  [ ("backend", .str r.backend),
    ("database", .str r.database),
    ("database_url", optVal r.database_url),
    ("database_name", optVal r.database_name),
    ("connection_status", .str r.connection_status),
    ("collections", .arr r.collections) ]

/-- The `/test` handler `test_database`.  `imp` is the outcome of
`from database import db`, `env` the process environment.  FastAPI returns
a dict from a handler with HTTP status 200; the result pairs that status
with the response dict. -/
def test_database (imp : ImportOutcome) (env : Env) : Nat × TestResponse :=
  let response : TestResponse :=
    { backend := "✅ Running"
      database := "❌ Not Available"
      database_url := none
      database_name := none
      connection_status := "Not Connected"
      collections := [] }
  let response :=
    match imp with
    | .ok (some db) =>
        let response :=
          { response with
            database := "✅ Available"
            database_url := some "✅ Configured"
            database_name :=
              some (match db.name with | some n => n | none => "✅ Connected")
            connection_status := "Connected" }
        match db.list_collection_names with
        | .ok collections =>
            { response with
              collections := collections.take 10
              database := "✅ Connected & Working" }
        | .error e =>
            { response with
              database := "⚠️  Connected but Error: " ++ pySlice e 50 }
    | .ok none =>
        { response with database := "⚠️  Available but not initialized" }
    | .importError =>
        { response with
          database := "❌ Database module not found (run enable-database first)" }
    | .otherError e =>
        { response with database := "❌ Error: " ++ pySlice e 50 }
  let response :=
    { response with
      database_url :=
        some (if truthyStr env.DATABASE_URL then "✅ Set" else "❌ Not Set")
      database_name :=
        some (if truthyStr env.DATABASE_NAME then "✅ Set" else "❌ Not Set") }
  (200, response)

/-- C1: every exception raised inside deck construction or serialization
(`build_deck_content`, document assembly, or `prs.save`) is caught by
`export_pptx` at the request boundary and answered with a 500-status JSON
response whose body is the dict {"error": message}; in particular no
streaming response — hence no partial document — is produced. -/
theorem C1_export_error_boundary (e : String) :
    export_pptx (some e) = HttpResponse.json 500 [("error", e)] :=
  rfl

/-- C2: the document built by `create_pptx_bytes` has exactly one slide more
than the number of non-title records of the content table returned by
`build_deck_content`: 13 slides for the 13-record table. -/
theorem C2_slide_count :
    create_pptx_bytes.length =
      (build_deck_content.filter (fun r => !(r.type == some "title"))).length + 1 ∧
    build_deck_content.length = 13 ∧ create_pptx_bytes.length = 13 :=
  ⟨rfl, rfl, rfl⟩

/-- C4: on success, `export_pptx` streams the document with the
presentation media type and a Content-Disposition header naming
AI_Study_Bot_Presentation.pptx, and the first slide of the document has
title "AI Study Bot" and subtitle "Intelligent Assistant for Learning". -/
theorem C4_export_success :
    export_pptx none =
      HttpResponse.streaming
        "application/vnd.openxmlformats-officedocument.presentationml.presentation"
        [("Content-Disposition", "attachment; filename=AI_Study_Bot_Presentation.pptx")]
        create_pptx_bytes ∧
    create_pptx_bytes.head? =
      some { title := "AI Study Bot",
             paragraphs := ["Intelligent Assistant for Learning"] } :=
  ⟨rfl, rfl⟩

/-- C6: `test_database` is a total function of the import outcome, the db
handle and the environment — no branch raises — and every branch returns
HTTP status 200 with a response dict carrying exactly the keys backend,
database, database_url, database_name, connection_status, collections. -/
theorem C6_test_database_total (imp : ImportOutcome) (env : Env) :
    (test_database imp env).1 = 200 ∧
    ((test_database imp env).2.toDict.map Prod.fst) =
      ["backend", "database", "database_url", "database_name",
       "connection_status", "collections"] :=
  ⟨rfl, rfl⟩

/-- A Title record in the sense of the data model: `type` is "title" and
both `title` and `subtitle` are present strings. -/
def isTitleRecord (r : Record) : Bool :=
  r.type == some "title" && r.title.isSome && r.subtitle.isSome

/-- A Bullet record: a present title, a truthy `points` list, no truthy
`flow`. -/
def isBulletRecord (r : Record) : Bool :=
  r.title.isSome && truthyList r.points && !truthyList r.flow

/-- A Flow record: a present title, a truthy `flow` list, no truthy
`points`. -/
def isFlowRecord (r : Record) : Bool :=
  r.title.isSome && truthyList r.flow && !truthyList r.points

/-- C5: the first record of `build_deck_content` is a Title record, every
subsequent record is a Bullet record or a Flow record and never both, and
the renderer checks the points branch before the flow branch, so bullet
points take precedence over a flow for any record carrying both. -/
theorem C5_outline_invariant :
    (∃ first rest, build_deck_content = first :: rest ∧
        isTitleRecord first = true ∧
        rest.all (fun r => isBulletRecord r != isFlowRecord r) = true) ∧
    ∀ sec : Record, truthyList sec.points = true →
      (renderSection sec).paragraphs = sec.points.getD [] := by
  constructor
  · exact ⟨_, _, rfl, rfl, rfl⟩
  · intro sec h
    simp [renderSection, h]

/-- C5 witness: a record carrying both non-empty points and a non-empty
flow renders its bullet points. -/
theorem C5_outline_invariant_witness :
    (renderSection
        { title := some "Both", points := some ["a"], flow := some ["b"] }).paragraphs
      = ["a"] :=
  C5_outline_invariant.2
    { title := some "Both", points := some ["a"], flow := some ["b"] } rfl

/-- C8: when `from database import db` raises ImportError, the `/test`
response reports a `database` field that contains the substring
"not found" and `connection_status` "Not Connected". -/
theorem C8_import_error (env : Env) :
    (test_database ImportOutcome.importError env).2.database =
      "❌ Database module not found (run enable-database first)" ∧
    "not found".toList <:+:
      (test_database ImportOutcome.importError env).2.database.toList ∧
    (test_database ImportOutcome.importError env).2.connection_status =
      "Not Connected" := by
  refine ⟨rfl, ?_, rfl⟩
  show "not found".toList <:+:
    ("❌ Database module not found (run enable-database first)").toList
  decide

/-- C10: the content-slide renderer is total on section records: with
neither a truthy `points` list nor a truthy `flow` list (an empty points
list counts as absent), the record still yields a slide with its title and
a single empty body paragraph. -/
theorem C10_empty_section_total (sec : Record)
    (hp : truthyList sec.points = false) (hf : truthyList sec.flow = false) :
    renderSection sec = { title := sec.title.getD "", paragraphs := [""] } := by
  simp [renderSection, hp, hf]

/-- C10 witness: a record whose `points` key holds the empty list renders
as a titled slide with one empty paragraph. -/
theorem C10_empty_section_total_witness :
    renderSection { title := some "Empty", points := some ([] : List String) } =
      { title := "Empty", paragraphs := [""] } :=
  C10_empty_section_total
    { title := some "Empty", points := some ([] : List String) } rfl rfl

/-- Closed form of the flow loop: on a non-empty step list, every step but
the last gets " → " appended and the last step is emitted unchanged. -/
theorem renderFlowAux_eq (l : List String) :
    ∀ (s : String) (i n : Nat), i + (s :: l).length = n →
      renderFlowAux n i (s :: l) =
        (s :: l).dropLast.map (fun x => x ++ " → ") ++
          [(s :: l).getLast (List.cons_ne_nil s l)] := by
  induction l with
  | nil =>
    intro s i n hn
    have hni : ¬ i < n - 1 := by simp at hn; omega
    simp [renderFlowAux, hni]
  | cons t rest ih =>
    intro s i n hn
    have hlt : i < n - 1 := by simp at hn; omega
    have hrec := ih t (i + 1) n (by simp at hn ⊢; omega)
    show (s ++ (if i < n - 1 then " → " else "")) ::
        renderFlowAux n (i + 1) (t :: rest) =
      (s :: t :: rest).dropLast.map (fun x => x ++ " → ") ++
        [(s :: t :: rest).getLast (List.cons_ne_nil s (t :: rest))]
    rw [if_pos hlt, hrec, List.getLast_cons (List.cons_ne_nil t rest)]
    simp

/-- C3: for a flow record (no truthy points) with a non-empty step list,
the rendered body has one paragraph per step; each step except the last
carries the trailing separator " → " and the last step carries none. -/
theorem C3_flow_separators (sec : Record) (flow : List String)
    (hp : truthyList sec.points = false) (hf : sec.flow = some flow)
    (hne : flow ≠ []) :
    (renderSection sec).paragraphs =
      flow.dropLast.map (fun s => s ++ " → ") ++ [flow.getLast hne] := by
  cases flow with
  | nil => exact absurd rfl hne
  | cons s rest =>
    have hbody : (renderSection sec).paragraphs = renderFlow (s :: rest) := by
      show (if truthyList sec.points then sec.points.getD []
            else if truthyList sec.flow then renderFlow (sec.flow.getD [])
            else [""]) = renderFlow (s :: rest)
      rw [hp, hf]
      simp [truthyList]
    rw [hbody, renderFlow, renderFlowAux_eq rest s 0 (s :: rest).length (by simp)]

/-- C3 witness: the two-step flow of the claim renders as the paragraphs
"User query → " and "NLP". -/
theorem C3_flow_separators_witness :
    (renderSection { title := some "Workflow", flow := some ["User query", "NLP"] }).paragraphs =
      ["User query → ", "NLP"] := by
  have h := C3_flow_separators
    { title := some "Workflow", flow := some ["User query", "NLP"] }
    ["User query", "NLP"] rfl rfl (List.cons_ne_nil _ _)
  simpa using h

/-- C7 counterexample: with DATABASE_URL set to the empty string — a set
environment variable — the final `database_url` field reads "❌ Not Set",
because the handler tests the truthiness of `os.getenv`, not presence. -/
theorem C7_counterexample :
    (Env.mk (some "") none).DATABASE_URL.isSome = true ∧
    (test_database ImportOutcome.importError (Env.mk (some "") none)).2.database_url =
      some "❌ Not Set" := by
  exact ⟨rfl, rfl⟩

/-- C7 (amended): the final `database_url` field is "✅ Set" exactly when
DATABASE_URL is set to a non-empty string and "❌ Not Set" when it is unset
or empty (analogously `database_name` for DATABASE_NAME); both fields are
independent of the import outcome and the live connectivity check, the
final environment check overriding any value set during it. -/
theorem C7_env_flags (imp imp2 : ImportOutcome) (env : Env) :
    ((test_database imp env).2.database_url =
        (test_database imp2 env).2.database_url ∧
      (test_database imp env).2.database_name =
        (test_database imp2 env).2.database_name) ∧
    (∀ s, env.DATABASE_URL = some s → s ≠ "" →
      (test_database imp env).2.database_url = some "✅ Set") ∧
    ((env.DATABASE_URL = none ∨ env.DATABASE_URL = some "") →
      (test_database imp env).2.database_url = some "❌ Not Set") ∧
    (∀ s, env.DATABASE_NAME = some s → s ≠ "" →
      (test_database imp env).2.database_name = some "✅ Set") ∧
    ((env.DATABASE_NAME = none ∨ env.DATABASE_NAME = some "") →
      (test_database imp env).2.database_name = some "❌ Not Set") := by
  refine ⟨⟨rfl, rfl⟩, ?_, ?_, ?_, ?_⟩
  · intro s hs hne
    show some (if truthyStr env.DATABASE_URL then "✅ Set" else "❌ Not Set") = _
    rw [hs]
    simp [truthyStr, String.isEmpty_iff, hne]
  · rintro (h | h) <;>
      · show some (if truthyStr env.DATABASE_URL then "✅ Set" else "❌ Not Set") = _
        rw [h]
        decide
  · intro s hs hne
    show some (if truthyStr env.DATABASE_NAME then "✅ Set" else "❌ Not Set") = _
    rw [hs]
    simp [truthyStr, String.isEmpty_iff, hne]
  · rintro (h | h) <;>
      · show some (if truthyStr env.DATABASE_NAME then "✅ Set" else "❌ Not Set") = _
        rw [h]
        decide

/-- C7 witness: with DATABASE_URL set to a non-empty connection string the
final `database_url` field is "✅ Set". -/
theorem C7_env_flags_witness :
    (test_database ImportOutcome.importError
        (Env.mk (some "mongodb://localhost") none)).2.database_url =
      some "✅ Set" :=
  (C7_env_flags ImportOutcome.importError ImportOutcome.importError
      (Env.mk (some "mongodb://localhost") none)).2.1
    "mongodb://localhost" rfl (by decide)

/-- C9: when the handle is present but `list_collection_names` raises, the
response keeps `connection_status` "Connected" and `collections` at the
already-set empty list, and only the `database` field changes, to
"⚠️  Connected but Error: " followed by at most the first 50 characters of
the exception message. -/
theorem C9_collections_error_frame (db : DbHandle) (env : Env) (e : String)
    (h : db.list_collection_names = Except.error e) :
    (test_database (ImportOutcome.ok (some db)) env).2.connection_status =
      "Connected" ∧
    (test_database (ImportOutcome.ok (some db)) env).2.collections = [] ∧
    (test_database (ImportOutcome.ok (some db)) env).2.database =
      "⚠️  Connected but Error: " ++ pySlice e 50 ∧
    (pySlice e 50).length ≤ 50 := by
  obtain ⟨nm, lc⟩ := db
  change lc = Except.error e at h
  subst h
  refine ⟨rfl, rfl, rfl, ?_⟩
  show (e.data.take 50).length ≤ 50
  exact List.length_take_le 50 e.data

/-- C9 witness: a handle whose collection listing raises "boom" yields the
frame described by C9 at a concrete input. -/
theorem C9_collections_error_frame_witness :
    (test_database
        (ImportOutcome.ok (some (DbHandle.mk (some "mydb") (Except.error "boom"))))
        (Env.mk none none)).2.database =
      "⚠️  Connected but Error: " ++ pySlice "boom" 50 :=
  (C9_collections_error_frame (DbHandle.mk (some "mydb") (Except.error "boom"))
      (Env.mk none none) "boom" rfl).2.2.1

/-- C1 witness: a concrete save failure is answered with the 500 JSON
error body. -/
theorem C1_export_error_boundary_witness :
    export_pptx (some "save failed") =
      HttpResponse.json 500 [("error", "save failed")] :=
  C1_export_error_boundary "save failed"

/-- C6 witness: the import-error branch returns status 200 with the six
response keys. -/
theorem C6_test_database_total_witness :
    (test_database ImportOutcome.importError (Env.mk none none)).1 = 200 ∧
    ((test_database ImportOutcome.importError (Env.mk none none)).2.toDict.map
        Prod.fst) =
      ["backend", "database", "database_url", "database_name",
       "connection_status", "collections"] :=
  C6_test_database_total ImportOutcome.importError (Env.mk none none)

/-- C8 witness: at a concrete environment the import-error branch reports
the "not found" message and "Not Connected". -/
theorem C8_import_error_witness :
    (test_database ImportOutcome.importError (Env.mk none none)).2.database =
      "❌ Database module not found (run enable-database first)" :=
  (C8_import_error (Env.mk none none)).1
